import Mathlib

/-!
Shallow embedding of the helmet-camera coordinator (master MQTT service,
timeout sweeper, heartbeat driver, movement detector, web command endpoint)
and of the peer-side command handler, together with proofs about the
claims of the specification.

Python dictionaries are modelled as association lists (`alookup`,
`aupdate`, `ainsert`, `aerase`); Python sets of peer ids as lists of
strings; floating point times and millisecond quantities as rationals.
-/

namespace HelmClient

section AssocList

variable {κ : Type} {α : Type} [DecidableEq κ]

/-- Lookup of a key in an association list (first occurrence wins),
modelling Python dictionary access. -/
def alookup (k : κ) : List (κ × α) → Option α
  | [] => none
  | p :: rest => if p.1 = k then some p.2 else alookup k rest

/-- Replace the value stored at a key, modelling Python in-place update
of an existing dictionary entry. Keys that are absent are untouched. -/
def aupdate (k : κ) (v : α) : List (κ × α) → List (κ × α)
  | [] => []
  | p :: rest => if p.1 = k then (k, v) :: aupdate k v rest else p :: aupdate k v rest

/-- Python dictionary assignment for a possibly new key: update in place
when present, append otherwise. -/
def ainsert (k : κ) (v : α) (l : List (κ × α)) : List (κ × α) :=
  if (alookup k l).isSome then aupdate k v l else l ++ [(k, v)]

/-- Python dictionary deletion of a key. -/
def aerase (k : κ) : List (κ × α) → List (κ × α)
  | [] => []
  | p :: rest => if p.1 = k then aerase k rest else p :: aerase k rest

theorem alookup_aupdate_self (k : κ) (v : α) (l : List (κ × α)) :
    alookup k (aupdate k v l) = (alookup k l).map (fun _ => v) := by
  induction l with
  | nil => rfl
  | cons p rest ih =>
    by_cases hp : p.1 = k
    · simp [aupdate, alookup, hp]
    · simp [aupdate, alookup, hp, ih]

theorem alookup_aupdate_ne {k k' : κ} (v : α) (l : List (κ × α)) (h : k ≠ k') :
    alookup k' (aupdate k v l) = alookup k' l := by
  induction l with
  | nil => rfl
  | cons p rest ih =>
    by_cases hp : p.1 = k
    · have hp' : ¬ p.1 = k' := by rw [hp]; exact h
      simp [aupdate, alookup, hp, h, hp', ih]
    · have h' : ¬ k' = k := fun hh => h hh.symm
      by_cases hk : p.1 = k'
      · simp [aupdate, alookup, hp, hk, h', ih]
      · simp [aupdate, alookup, hp, hk, h', ih]

theorem alookup_ainsert_self (k : κ) (v : α) (l : List (κ × α)) :
    alookup k (ainsert k v l) = some v := by
  unfold ainsert
  by_cases h : (alookup k l).isSome
  · rw [if_pos h, alookup_aupdate_self]
    cases hl : alookup k l with
    | none => rw [hl] at h; simp at h
    | some b => simp
  · rw [if_neg h]
    induction l with
    | nil => simp [alookup]
    | cons p rest ih =>
      by_cases hp : p.1 = k
      · exfalso
        apply h
        simp [alookup, hp]
      · simp only [alookup, if_neg hp, List.cons_append] at h ⊢
        exact ih h

theorem alookup_ainsert_ne {k k' : κ} (v : α) (l : List (κ × α)) (h : k ≠ k') :
    alookup k' (ainsert k v l) = alookup k' l := by
  unfold ainsert
  by_cases hs : (alookup k l).isSome
  · rw [if_pos hs, alookup_aupdate_ne v l h]
  · rw [if_neg hs]
    induction l with
    | nil => simp [alookup, h]
    | cons p rest ih =>
      by_cases hp : p.1 = k
      · simp [alookup, hp] at hs
      · simp only [alookup, if_neg hp] at hs
        by_cases hk : p.1 = k'
        · simp [alookup, hk]
        · simp only [List.cons_append, alookup, if_neg hk]
          exact ih hs

theorem alookup_aerase_self (k : κ) (l : List (κ × α)) :
    alookup k (aerase k l) = none := by
  induction l with
  | nil => rfl
  | cons p rest ih =>
    by_cases hp : p.1 = k
    · simpa [aerase, hp] using ih
    · simpa [aerase, alookup, hp] using ih

theorem alookup_aerase_ne {k k' : κ} (l : List (κ × α)) (h : k ≠ k') :
    alookup k' (aerase k l) = alookup k' l := by
  induction l with
  | nil => rfl
  | cons p rest ih =>
    by_cases hp : p.1 = k
    · have hp' : ¬ p.1 = k' := by rw [hp]; exact h
      simp [aerase, alookup, hp, h, hp', ih]
    · have h' : ¬ k' = k := fun hh => h hh.symm
      by_cases hk : p.1 = k'
      · simp [aerase, alookup, hp, hk, h', ih]
      · simp [aerase, alookup, hp, hk, h', ih]

theorem alookup_isSome_aupdate (k k' : κ) (v : α) (l : List (κ × α)) :
    (alookup k' (aupdate k v l)).isSome = (alookup k' l).isSome := by
  by_cases h : k = k'
  · subst h
    rw [alookup_aupdate_self]
    cases alookup k l <;> simp
  · rw [alookup_aupdate_ne v l h]

end AssocList

/-! ## Master side: data model (master_helmet_system.py, MQTTMasterService) -/

/-- Response envelope sent by a peer, as read by the master
(`_process_response` uses the id, client and status fields). -/
structure Response where
  id : Nat
  client : String
  status : String
  started_ns : Int
  finished_ns : Int
  file : String
  jitter_us : Int
  error : String
deriving DecidableEq, Repr

/-- One entry of `self.pending_commands`: the set of peers still awaited,
the responses received so far, the issue timestamp, and the optional
"type" key (present and equal to "poll" for heartbeat commands). -/
structure PendingEntry where
  slaves_waiting : List String
  responses : List (String × Response)
  timestamp : ℚ
  type : Option String
deriving DecidableEq, Repr

/-- One cell of `self.board_stats` (per-peer statistics). -/
structure BoardStat where
  total_commands : Nat
  successful_responses : Nat
  failed_responses : Nat
  timeout_responses : Nat
  last_seen : Option ℚ
  last_response_time_ms : ℚ
  avg_response_time_ms : ℚ
  response_count : Nat
  status : String
deriving DecidableEq, Repr

/-- The global `self.stats` dictionary. -/
structure Stats where
  total_commands : Nat
  successful_responses : Nat
  failed_responses : Nat
  timeout_responses : Nat
  master_captures : Nat
  master_capture_failures : Nat
deriving DecidableEq, Repr

/-- The mutable state of `MQTTMasterService`. -/
structure MasterState where
  connected : Bool
  command_counter : Nat
  pending_commands : List (Nat × PendingEntry)
  stats : Stats
  board_stats : List (String × BoardStat)
  last_poll_time : ℚ
deriving DecidableEq, Repr

/-- Initial per-peer statistics cell, from `MQTTMasterService.__init__`. -/
def initBoardStat : BoardStat :=
  { total_commands := 0
    successful_responses := 0
    failed_responses := 0
    timeout_responses := 0
    last_seen := none
    last_response_time_ms := 0
    avg_response_time_ms := 0
    response_count := 0
    status := "unknown" }

/-- Initial global statistics, from `MQTTMasterService.__init__`. -/
def initStats : Stats :=
  { total_commands := 0
    successful_responses := 0
    failed_responses := 0
    timeout_responses := 0
    master_captures := 0
    master_capture_failures := 0 }

/-- State built by `MQTTMasterService.__init__` for a configured peer list;
`now` is the wall-clock time at construction (`self.last_poll_time`). -/
def initMasterState (slaves : List String) (now : ℚ) : MasterState :=
  { connected := false
    command_counter := 0
    pending_commands := []
    stats := initStats
    board_stats := slaves.map (fun sl => (sl, initBoardStat))
    last_poll_time := now }

/-- `_on_connect`: rc = 0 sets connected, anything else clears it. -/
def on_connect (rc : Nat) (s : MasterState) : MasterState :=
  if rc = 0 then { s with connected := true } else { s with connected := false }

/-! ## Master side: operations -/

/-- The per-peer statistics update performed by `_process_response` for a
client present in `board_stats` (lines 223-251): bump totals, record the
response time, update the running mean, then dispatch on the status. -/
def updateBoardStat (rtt wall : ℚ) (status : String) (b : BoardStat) : BoardStat :=
  let count1 := b.response_count + 1
  let avg1 : ℚ :=
    if count1 > 1 then
      (b.avg_response_time_ms * ((count1 : ℚ) - 1) + rtt) / (count1 : ℚ)
    else rtt
  let b1 := { b with
    total_commands := b.total_commands + 1
    last_seen := some wall
    last_response_time_ms := rtt
    response_count := count1
    avg_response_time_ms := avg1 }
  if status = "ok" then
    { b1 with successful_responses := b1.successful_responses + 1, status := "online" }
  else if status = "timeout" then
    { b1 with timeout_responses := b1.timeout_responses + 1, status := "timeout" }
  else
    { b1 with failed_responses := b1.failed_responses + 1, status := "error" }

/-- The matching global-statistics update of `_process_response`. -/
def updateGlobalStats (status : String) (g : Stats) : Stats :=
  if status = "ok" then
    { g with successful_responses := g.successful_responses + 1 }
  else if status = "timeout" then
    { g with timeout_responses := g.timeout_responses + 1 }
  else
    { g with failed_responses := g.failed_responses + 1 }

/-- `MQTTMasterService._process_response` (with `_command_completed`
inlined as the deletion it performs): unknown command ids are dropped;
otherwise the response is recorded, per-peer and global statistics are
updated whenever the client is configured, the client is removed from the
waiting set, and the entry is deleted once the waiting set empties.
`now` is the wall-clock time of processing, `wall` the `last_seen` stamp. -/
def process_response (now wall : ℚ) (resp : Response) (s : MasterState) : MasterState :=
  match alookup resp.id s.pending_commands with
  | none => s
  | some entry =>
    let rtt : ℚ := (now - entry.timestamp) * 1000
    let waiting1 := entry.slaves_waiting.erase resp.client
    let entry1 : PendingEntry :=
      { entry with
        responses := ainsert resp.client resp entry.responses
        slaves_waiting := waiting1 }
    let pending1 :=
      if waiting1.isEmpty then aerase resp.id s.pending_commands
      else aupdate resp.id entry1 s.pending_commands
    match alookup resp.client s.board_stats with
    | none => { s with pending_commands := pending1 }
    | some b =>
      { s with
        pending_commands := pending1
        board_stats := aupdate resp.client (updateBoardStat rtt wall resp.status b) s.board_stats
        stats := updateGlobalStats resp.status s.stats }

/-- `MQTTMasterService.send_capture_command`: returns the updated state
and the Python return value (`some id` on success, `none` when not
connected or when the publish fails). `slaves` is `self.slaves`,
`publishOk` tells whether `client.publish` returned MQTT_ERR_SUCCESS
(a raised exception behaves identically: return None, no cleanup). -/
def send_capture_command (slaves : List String) (now : ℚ) (publishOk : Bool)
    (s : MasterState) : MasterState × Option Nat :=
  if s.connected = false then (s, none)
  else
    let cid := s.command_counter + 1
    let entry : PendingEntry :=
      { slaves_waiting := slaves, responses := [], timestamp := now, type := none }
    let s1 := { s with
      command_counter := cid
      pending_commands := ainsert cid entry s.pending_commands }
    if publishOk then
      ({ s1 with stats := { s1.stats with total_commands := s1.stats.total_commands + 1 } },
       some cid)
    else (s1, none)

/-- `MQTTMasterService.send_poll_message`: skipped when not connected or
when the polling interval has not elapsed; otherwise a "poll"-typed
pending entry is inserted and on a successful publish `last_poll_time`
moves forward. Note: `self.stats` is never touched. -/
def send_poll_message (slaves : List String) (polling_interval now : ℚ)
    (publishOk : Bool) (s : MasterState) : MasterState :=
  if s.connected = false then s
  else if now - s.last_poll_time < polling_interval then s
  else
    let cid := s.command_counter + 1
    let entry : PendingEntry :=
      { slaves_waiting := slaves, responses := [], timestamp := now, type := some "poll" }
    let s1 := { s with
      command_counter := cid
      pending_commands := ainsert cid entry s.pending_commands }
    if publishOk then { s1 with last_poll_time := now } else s1

/-- The expiry test of `_check_timeouts`:
`current_time - command_data["timestamp"] > self.command_timeout`. -/
def expiredP (timeout now : ℚ) (e : PendingEntry) : Bool :=
  decide (now - e.timestamp > timeout)

/-- The per-peer bookkeeping of `_check_timeouts` for one non-responding
peer of a timed-out command (guarded by membership in `board_stats`). -/
def bumpTimeout (sl : String) (s : MasterState) : MasterState :=
  match alookup sl s.board_stats with
  | none => s
  | some b =>
    { s with
      board_stats :=
        aupdate sl
          { b with timeout_responses := b.timeout_responses + 1, status := "timeout" }
          s.board_stats
      stats := { s.stats with timeout_responses := s.stats.timeout_responses + 1 } }

/-- `MQTTMasterService._check_timeouts` (one sweeper pass at time `now`
with command timeout `timeout`): every entry strictly older than the
timeout contributes one `bumpTimeout` per still-waiting peer, then all
such entries are removed from the pending table. -/
def check_timeouts (timeout now : ℚ) (s : MasterState) : MasterState :=
  let expired := s.pending_commands.filter (fun q => expiredP timeout now q.2)
  let s1 := expired.foldl
    (fun acc q => q.2.slaves_waiting.foldl (fun a sl => bumpTimeout sl a) acc) s
  { s1 with
    pending_commands := s1.pending_commands.filter (fun q => !expiredP timeout now q.2) }

/-! ## Peer side: command handler (Slave/camera/services.py, MQTTCameraService) -/

/-- Command envelope as read by the peer handler: the id, the optional
"type" key, the issue stamp used for jitter, and the notes. -/
structure Command where
  id : Nat
  type : Option String
  t_utc_ns : Int
  notes : String
deriving DecidableEq, Repr

/-- Peer-handler state relevant to duplicate suppression and session
accounting (`MQTTCameraService.__init__`). -/
structure SlaveState where
  last_command_id : Option Nat
  photos_in_session : Nat
  last_capture_time : ℚ
deriving DecidableEq, Repr

/-- Fresh peer-handler state. -/
def initSlaveState : SlaveState :=
  { last_command_id := none, photos_in_session := 0, last_capture_time := 0 }

/-- `MQTTCameraService._handle_poll_command`: the response always
carries status "online". -/
def handle_poll_command (client_id : String) (command_id : Nat)
    (start_ns finish_ns : Int) : Response :=
  { id := command_id
    client := client_id
    status := "online"
    started_ns := start_ns
    finished_ns := finish_ns
    file := ""
    jitter_us := 0
    error := "" }

/-- `MQTTCameraService._process_command`, returning the new state, the
number of camera invocations performed (0 or 1) and the response sent
(`none` when no response is published). Poll-typed commands are answered
immediately; a command whose id equals `last_command_id` is ignored;
otherwise the id is remembered and the camera invoked once, answering
"ok" or "error" according to `photo_ok` (the truth of the returned photo
path). `filename` stands for the derived artifact filename. -/
def process_command (client_id filename : String) (start_ns finish_ns : Int)
    (now : ℚ) (photo_ok : Bool) (s : SlaveState) (cmd : Command) :
    SlaveState × Nat × Option Response :=
  if cmd.type.getD "capture" = "poll" then
    (s, 0, some (handle_poll_command client_id cmd.id start_ns finish_ns))
  else if s.last_command_id = some cmd.id then
    (s, 0, none)
  else
    let s1 := { s with last_command_id := some cmd.id }
    let jit : Int := Int.fdiv (start_ns - cmd.t_utc_ns) 1000
    if photo_ok then
      let s2 := { s1 with
        photos_in_session := s1.photos_in_session + 1
        last_capture_time := now }
      (s2, 1, some
        { id := cmd.id, client := client_id, status := "ok"
          started_ns := start_ns, finished_ns := finish_ns
          file := filename, jitter_us := jit, error := "" })
    else
      (s1, 1, some
        { id := cmd.id, client := client_id, status := "error"
          started_ns := start_ns, finished_ns := finish_ns
          file := "", jitter_us := jit, error := "Photo capture failed" })

/-- A sequence of command deliveries to one peer handler, recording for
each the number of captures performed and the response sent. Incidental
parameters (timestamps, filename) are fixed as they do not affect the
control flow being verified. -/
def run_slave (client_id : String) (s : SlaveState) :
    List (Command × Bool) → SlaveState × List (Nat × Option Response)
  | [] => (s, [])
  | (c, ok) :: rest =>
    let r := process_command client_id "photo.jpg" 0 0 0 ok s c
    let t := run_slave client_id r.1 rest
    (t.1, (r.2.1, r.2.2) :: t.2)

/-! ## Movement detector (AutoCaptureManager.start_imu_monitoring) -/

/-- Detector state: `self.last_imu_capture` (initially 0) and
`self.last_acceleration` (initially None). -/
structure ImuState where
  last_imu_capture : ℚ
  last_acceleration : Option ℚ
deriving DecidableEq, Repr

/-- Initial detector state from `AutoCaptureManager.__init__`. -/
def imuInit : ImuState := { last_imu_capture := 0, last_acceleration := none }

/-- One IMU sample: its wall-clock time and, when the sensor snapshot is
available, the acceleration magnitude `sqrt(ax^2+ay^2+az^2)` the loop
computes from it (`none` models `available = False`). -/
structure ImuSample where
  t : ℚ
  reading : Option ℚ
deriving DecidableEq, Repr

/-- One iteration of the `imu_monitor_loop` body: within the cooldown
window the sample is skipped entirely; an unavailable snapshot idles;
otherwise a trigger fires exactly when a previous magnitude exists and
the magnitude delta exceeds the threshold, in which case
`last_imu_capture` moves to the sample time; the magnitude always seeds
`last_acceleration` afterwards. Returns the new state and whether a
capture was triggered. -/
def imu_step (threshold cooldown : ℚ) (s : ImuState) (x : ImuSample) :
    ImuState × Bool :=
  if x.t - s.last_imu_capture < cooldown then (s, false)
  else
    match x.reading with
    | none => (s, false)
    | some mag =>
      match s.last_acceleration with
      | none => ({ s with last_acceleration := some mag }, false)
      | some prev =>
        if |mag - prev| > threshold then
          ({ last_imu_capture := x.t, last_acceleration := some mag }, true)
        else
          ({ s with last_acceleration := some mag }, false)

/-- Run the monitoring loop over a list of samples, collecting the times
at which a trigger (a `capture_single_photo("movement_trigger")` call)
fires. -/
def imu_run (threshold cooldown : ℚ) (s : ImuState) : List ImuSample → List ℚ
  | [] => []
  | x :: rest =>
    let r := imu_step threshold cooldown s x
    if r.2 then x.t :: imu_run threshold cooldown r.1 rest
    else imu_run threshold cooldown r.1 rest

/-! ## Dashboard command endpoint (web_master_server.py, api_send_command) -/

/-- Attributes of a `MasterHelmetSystem` instance after `__init__` and
`start` (master_helmet_system.py lines 651-872): every field assigned in
`__init__`/`start` plus every method of the class. -/
def masterHelmetSystemAttrs : List String :=
  ["config", "imu_sensor", "mqtt_service", "gpio_generator", "master_camera",
   "session_logger", "session_dir", "oled_display", "display_thread",
   "display_running", "auto_capture", "running", "imu_log_path",
   "start", "capture_single_photo", "web_capture_single_photo", "cleanup"]

/-- Result of the POST command endpoint, keeping the HTTP code and the
JSON fields the claim mentions. -/
structure ApiResult where
  code : Nat
  body_status : Option String
  body_count : Option Nat
  body_interval : Option Nat
  body_error : Option String
deriving DecidableEq, Repr

/-- `api_send_command`: guarded by
`not master_system or not hasattr(master_system, "capture_sequence")`,
which returns HTTP 503; otherwise the sequence is started in the
background and `status = "started"` is returned with the given count and
interval. `attrs` is the attribute set of the master system object. -/
def api_send_command (master_present : Bool) (attrs : List String)
    (count interval : Nat) : ApiResult :=
  if master_present = false ∨ ¬ ("capture_sequence" ∈ attrs) then
    { code := 503, body_status := none, body_count := none,
      body_interval := none, body_error := some "Master system not ready" }
  else
    { code := 200, body_status := some "started", body_count := some count,
      body_interval := some interval, body_error := none }

/-! ## Helper lemmas about the master operations -/

theorem process_response_unknown (now wall : ℚ) (resp : Response) (s : MasterState)
    (h : alookup resp.id s.pending_commands = none) :
    process_response now wall resp s = s := by
  unfold process_response
  rw [h]

theorem process_response_known (now wall : ℚ) (resp : Response) (s : MasterState)
    (entry : PendingEntry) (b : BoardStat)
    (hp : alookup resp.id s.pending_commands = some entry)
    (hb : alookup resp.client s.board_stats = some b) :
    alookup resp.client (process_response now wall resp s).board_stats =
      some (updateBoardStat ((now - entry.timestamp) * 1000) wall resp.status b) ∧
    (process_response now wall resp s).stats = updateGlobalStats resp.status s.stats := by
  unfold process_response
  rw [hp]
  dsimp only
  rw [hb]
  dsimp only
  constructor
  · rw [alookup_aupdate_self, hb]
    rfl
  · rfl

theorem updateGlobalStats_total (status : String) (g : Stats) :
    (updateGlobalStats status g).total_commands = g.total_commands := by
  unfold updateGlobalStats
  by_cases h1 : status = "ok"
  · simp [h1]
  · by_cases h2 : status = "timeout" <;> simp [h1, h2]

theorem bumpTimeout_pending (sl : String) (s : MasterState) :
    (bumpTimeout sl s).pending_commands = s.pending_commands := by
  unfold bumpTimeout
  cases alookup sl s.board_stats <;> rfl

theorem bumpTimeout_total (sl : String) (s : MasterState) :
    (bumpTimeout sl s).stats.total_commands = s.stats.total_commands := by
  unfold bumpTimeout
  cases alookup sl s.board_stats <;> rfl

theorem foldl_bump_pending (ws : List String) (s : MasterState) :
    ((ws.foldl (fun a sl => bumpTimeout sl a) s)).pending_commands = s.pending_commands := by
  induction ws generalizing s with
  | nil => rfl
  | cons sl rest ih => rw [List.foldl_cons, ih, bumpTimeout_pending]

theorem foldl_bump_total (ws : List String) (s : MasterState) :
    ((ws.foldl (fun a sl => bumpTimeout sl a) s)).stats.total_commands =
      s.stats.total_commands := by
  induction ws generalizing s with
  | nil => rfl
  | cons sl rest ih => rw [List.foldl_cons, ih, bumpTimeout_total]

theorem foldl_entries_pending (es : List (Nat × PendingEntry)) (s : MasterState) :
    ((es.foldl (fun acc q => q.2.slaves_waiting.foldl (fun a sl => bumpTimeout sl a) acc) s)).pending_commands
      = s.pending_commands := by
  induction es generalizing s with
  | nil => rfl
  | cons q rest ih => rw [List.foldl_cons, ih, foldl_bump_pending]

theorem foldl_entries_total (es : List (Nat × PendingEntry)) (s : MasterState) :
    ((es.foldl (fun acc q => q.2.slaves_waiting.foldl (fun a sl => bumpTimeout sl a) acc) s)).stats.total_commands
      = s.stats.total_commands := by
  induction es generalizing s with
  | nil => rfl
  | cons q rest ih => rw [List.foldl_cons, ih, foldl_bump_total]

/-! ## Concrete scenarios used by counterexamples and witnesses -/

/-- Two configured peers, freshly connected master. -/
def twoPeerState : MasterState := on_connect 0 (initMasterState ["cam2", "cam3"] 0)

/-- The state right after issuing capture command 1 to both peers. -/
def twoPeerIssued : MasterState :=
  (send_capture_command ["cam2", "cam3"] 0 true twoPeerState).1

/-- An "ok" response of peer cam2 to command 1. -/
def cam2OkResp : Response :=
  { id := 1, client := "cam2", status := "ok", started_ns := 0, finished_ns := 0,
    file := "photo.jpg", jitter_us := 0, error := "" }

/-- State after the first cam2 response (cam3 still waiting). -/
def afterFirstResp : MasterState := process_response 1 1 cam2OkResp twoPeerIssued

/-- State after cam2 delivers the same response a second time. -/
def afterDupResp : MasterState := process_response 2 2 cam2OkResp afterFirstResp

/-- One configured peer, freshly connected master. -/
def onePeerState : MasterState := on_connect 0 (initMasterState ["cam2"] 0)

/-! ## Claim C1 -/

/-- Claim C1 counterexample: with peers cam2 and cam3, after issuing
command 1, a second identical "ok" response from cam2 (no longer in the
waiting set) increments cam2's ok counter and GlobalStats again: the
counters reach 2 for a single (CommandId, PeerId) pair, and the rtt
statistics are overwritten by the second observation. -/
theorem duplicate_response_mutates_stats :
    ((alookup "cam2" afterFirstResp.board_stats).map BoardStat.successful_responses
      = some 1) ∧
    ((alookup "cam2" afterDupResp.board_stats).map BoardStat.successful_responses
      = some 2) ∧
    afterDupResp.stats.successful_responses = 2 ∧
    ((alookup "cam2" afterFirstResp.board_stats).map BoardStat.last_response_time_ms
      = some 1000) ∧
    ((alookup "cam2" afterDupResp.board_stats).map BoardStat.last_response_time_ms
      = some 2000) := by
  norm_num [afterDupResp, afterFirstResp, twoPeerIssued, twoPeerState, cam2OkResp,
    process_response, send_capture_command, on_connect, initMasterState, initBoardStat,
    initStats, updateBoardStat, updateGlobalStats, alookup, aupdate, ainsert, aerase]

/-- Claim C1 (amended): the master drops a response only when its
CommandId is absent from the Pending Table. For a pending CommandId,
every response from a configured peer mutates that peer's PeerStats and
GlobalStats on every delivery — including a second response for the same
(CommandId, PeerId) pair and responses from clients no longer in the
waiting set — and the rtt statistics are overwritten by the latest
observation. -/
theorem response_accounting_per_delivery :
    (∀ now wall : ℚ, ∀ resp : Response, ∀ s : MasterState,
        alookup resp.id s.pending_commands = none →
        process_response now wall resp s = s) ∧
    (∀ now wall : ℚ, ∀ resp : Response, ∀ s : MasterState,
        ∀ entry : PendingEntry, ∀ b : BoardStat,
        alookup resp.id s.pending_commands = some entry →
        alookup resp.client s.board_stats = some b →
        resp.status = "ok" →
        ∃ b', alookup resp.client (process_response now wall resp s).board_stats = some b' ∧
          b'.successful_responses = b.successful_responses + 1 ∧
          b'.response_count = b.response_count + 1 ∧
          b'.last_response_time_ms = (now - entry.timestamp) * 1000 ∧
          (process_response now wall resp s).stats.successful_responses =
            s.stats.successful_responses + 1) := by
  constructor
  · intro now wall resp s h
    exact process_response_unknown now wall resp s h
  · intro now wall resp s entry b hp hb hok
    obtain ⟨h1, h2⟩ := process_response_known now wall resp s entry b hp hb
    refine ⟨_, h1, ?_, ?_, ?_, ?_⟩
    · simp [updateBoardStat, hok]
    · simp [updateBoardStat, hok]
    · simp [updateBoardStat, hok]
    · rw [h2]
      simp [updateGlobalStats, hok]

/-- Claim C1 witness: the amended theorem applied to the duplicate cam2
response (cam2 is absent from the waiting set of the pending entry). -/
theorem response_accounting_per_delivery_witness :
    ∃ b', alookup "cam2" (process_response 2 2 cam2OkResp afterFirstResp).board_stats
        = some b' ∧
      b'.successful_responses = 1 + 1 ∧
      b'.response_count = 1 + 1 ∧
      b'.last_response_time_ms = ((2 : ℚ) - 0) * 1000 ∧
      (process_response 2 2 cam2OkResp afterFirstResp).stats.successful_responses = 1 + 1 :=
  response_accounting_per_delivery.2 2 2 cam2OkResp afterFirstResp
    { slaves_waiting := ["cam3"], responses := [("cam2", cam2OkResp)],
      timestamp := 0, type := none }
    { total_commands := 1, successful_responses := 1, failed_responses := 0,
      timeout_responses := 0, last_seen := some 1, last_response_time_ms := 1000,
      avg_response_time_ms := 1000, response_count := 1, status := "online" }
    (by norm_num [afterFirstResp, twoPeerIssued, twoPeerState, cam2OkResp,
      process_response, send_capture_command, on_connect, initMasterState, initBoardStat,
      initStats, updateBoardStat, updateGlobalStats, alookup, aupdate, ainsert, aerase])
    (by norm_num [afterFirstResp, twoPeerIssued, twoPeerState, cam2OkResp,
      process_response, send_capture_command, on_connect, initMasterState, initBoardStat,
      initStats, updateBoardStat, updateGlobalStats, alookup, aupdate, ainsert, aerase])
    rfl

/-! ## Claim C9 -/

/-- Claim C9: a peer answers a heartbeat poll with status "online";
the master's response dispatch treats every status other than "ok" and
"timeout" as a failure, so for every pending command and configured
peer such a response increments the peer's failed_responses and
GlobalStats.failed_responses and sets the peer's status to "error" —
a peer answering a poll is therefore recorded as "error", never
"online". -/
theorem poll_response_counted_as_error :
    (∀ client : String, ∀ cid : Nat, ∀ ns1 ns2 : Int,
        (handle_poll_command client cid ns1 ns2).status = "online") ∧
    (∀ now wall : ℚ, ∀ resp : Response, ∀ s : MasterState,
        ∀ entry : PendingEntry, ∀ b : BoardStat,
        alookup resp.id s.pending_commands = some entry →
        alookup resp.client s.board_stats = some b →
        resp.status ≠ "ok" → resp.status ≠ "timeout" →
        ∃ b', alookup resp.client (process_response now wall resp s).board_stats = some b' ∧
          b'.failed_responses = b.failed_responses + 1 ∧
          b'.status = "error" ∧
          (process_response now wall resp s).stats.failed_responses =
            s.stats.failed_responses + 1) := by
  constructor
  · intro client cid ns1 ns2
    rfl
  · intro now wall resp s entry b hp hb hok hto
    obtain ⟨h1, h2⟩ := process_response_known now wall resp s entry b hp hb
    refine ⟨_, h1, ?_, ?_, ?_⟩
    · simp [updateBoardStat, hok, hto]
    · simp [updateBoardStat, hok, hto]
    · rw [h2]
      simp [updateGlobalStats, hok, hto]

/-- State after the heartbeat driver issues poll command 1 to the single
configured peer cam2 (polling interval elapsed, publish succeeded). -/
def pollAttemptState : MasterState := send_poll_message ["cam2"] 60 60 true onePeerState

/-- Claim C9 witness: the theorem applied to cam2's "online" answer to
the pending poll command 1. -/
theorem poll_response_counted_as_error_witness :
    ∃ b', alookup "cam2"
        (process_response 61 61 (handle_poll_command "cam2" 1 0 0) pollAttemptState).board_stats
        = some b' ∧
      b'.failed_responses = initBoardStat.failed_responses + 1 ∧
      b'.status = "error" ∧
      (process_response 61 61 (handle_poll_command "cam2" 1 0 0) pollAttemptState).stats.failed_responses
        = pollAttemptState.stats.failed_responses + 1 :=
  poll_response_counted_as_error.2 61 61 (handle_poll_command "cam2" 1 0 0) pollAttemptState
    { slaves_waiting := ["cam2"], responses := [], timestamp := 60, type := some "poll" }
    initBoardStat
    (by norm_num [pollAttemptState, send_poll_message, onePeerState, on_connect,
      initMasterState, initStats, initBoardStat, ainsert, aupdate, alookup,
      handle_poll_command])
    (by norm_num [pollAttemptState, send_poll_message, onePeerState, on_connect,
      initMasterState, initStats, initBoardStat, ainsert, aupdate, alookup,
      handle_poll_command])
    (by decide) (by decide)

/-! ## Claim C2 -/

/-- Claim C2 counterexample: a connected master with one peer, whose
publish fails: `send_capture_command` returns None, yet the entry just
inserted for command 1 is still in the pending table — the table is not
left unchanged and the entry is not removed. -/
theorem failed_publish_leaves_entry :
    (send_capture_command ["cam2"] 0 false onePeerState).2 = none ∧
    (send_capture_command ["cam2"] 0 false onePeerState).1.pending_commands ≠
      onePeerState.pending_commands ∧
    alookup 1 (send_capture_command ["cam2"] 0 false onePeerState).1.pending_commands =
      some { slaves_waiting := ["cam2"], responses := [], timestamp := 0, type := none } := by
  norm_num [send_capture_command, onePeerState, on_connect, initMasterState, initStats,
    initBoardStat, ainsert, aupdate, alookup]

/-- Claim C2 (amended): when the publish fails, Issue returns None (not
a removed entry): the PendingEntry inserted for the new CommandId stays
in the Pending Table, to be evicted later by the Timeout Sweeper. -/
theorem failed_publish_returns_none_keeps_entry (slaves : List String) (now : ℚ)
    (s : MasterState) (h : s.connected = true) :
    (send_capture_command slaves now false s).2 = none ∧
    alookup (s.command_counter + 1)
        (send_capture_command slaves now false s).1.pending_commands =
      some { slaves_waiting := slaves, responses := [], timestamp := now, type := none } := by
  unfold send_capture_command
  rw [h]
  simp [alookup_ainsert_self]

/-- Claim C2 witness: the amended theorem at the one-peer connected
state. -/
theorem failed_publish_returns_none_keeps_entry_witness :
    (send_capture_command ["cam2"] 0 false onePeerState).2 = none ∧
    alookup (onePeerState.command_counter + 1)
        (send_capture_command ["cam2"] 0 false onePeerState).1.pending_commands =
      some { slaves_waiting := ["cam2"], responses := [], timestamp := 0, type := none } :=
  failed_publish_returns_none_keeps_entry ["cam2"] 0 onePeerState rfl

/-! ## Claim C3 -/

/-- Claim C3 counterexample: a successful heartbeat poll issue (command
counter bumped, "poll"-typed entry inserted, last_poll_time advanced)
leaves GlobalStats.total_commands unchanged, contradicting "every issued
poll command increments total_commands by exactly one". -/
theorem poll_not_counted_in_total_commands :
    pollAttemptState.command_counter = onePeerState.command_counter + 1 ∧
    ((alookup 1 pollAttemptState.pending_commands).map PendingEntry.type)
      = some (some "poll") ∧
    pollAttemptState.last_poll_time = 60 ∧
    pollAttemptState.stats.total_commands = onePeerState.stats.total_commands := by
  norm_num [pollAttemptState, send_poll_message, onePeerState, on_connect, initMasterState,
    initStats, initBoardStat, ainsert, aupdate, alookup]

/-- Claim C3 (amended): GlobalStats.total_commands counts exactly the
successful capture Issues: a successful capture publish adds one, a
failed publish adds nothing, issuing a poll never touches the global
statistics at all, and neither response processing nor the sweeper
changes total_commands — so the counter never decreases. -/
theorem total_commands_counts_successful_capture_issues :
    (∀ slaves : List String, ∀ now : ℚ, ∀ s : MasterState,
        ((send_capture_command slaves now true s).1).stats.total_commands =
          (if s.connected = true then s.stats.total_commands + 1
           else s.stats.total_commands)) ∧
    (∀ slaves : List String, ∀ now : ℚ, ∀ s : MasterState,
        ((send_capture_command slaves now false s).1).stats.total_commands =
          s.stats.total_commands) ∧
    (∀ slaves : List String, ∀ pint now : ℚ, ∀ pub : Bool, ∀ s : MasterState,
        (send_poll_message slaves pint now pub s).stats = s.stats) ∧
    (∀ now wall : ℚ, ∀ resp : Response, ∀ s : MasterState,
        (process_response now wall resp s).stats.total_commands =
          s.stats.total_commands) ∧
    (∀ tmo now : ℚ, ∀ s : MasterState,
        (check_timeouts tmo now s).stats.total_commands = s.stats.total_commands) := by
  refine ⟨?_, ?_, ?_, ?_, ?_⟩
  · intro slaves now s
    cases hc : s.connected <;> simp [send_capture_command, hc]
  · intro slaves now s
    cases hc : s.connected <;> simp [send_capture_command, hc]
  · intro slaves pint now pub s
    unfold send_poll_message
    split
    · rfl
    · split
      · rfl
      · split <;> rfl
  · intro now wall resp s
    unfold process_response
    cases hp : alookup resp.id s.pending_commands with
    | none => rfl
    | some entry =>
      dsimp only
      cases hb : alookup resp.client s.board_stats with
      | none => rfl
      | some b => exact updateGlobalStats_total resp.status s.stats
  · intro tmo now s
    unfold check_timeouts
    exact foldl_entries_total _ s

/-! ## Claim C5 -/

/-- Freshly connected master configured with an empty peer list. -/
def emptyPeerState : MasterState := on_connect 0 (initMasterState [] 0)

/-- Claim C5 counterexample: with an empty peer set, issuing a capture
command returns id 1 and the PendingEntry for id 1 (with empty waiting
set) is still in the Pending Table after Issue returns — the command is
not closed as part of issuing. -/
theorem empty_slaves_entry_not_closed :
    (send_capture_command [] 0 true emptyPeerState).2 = some 1 ∧
    alookup 1 (send_capture_command [] 0 true emptyPeerState).1.pending_commands =
      some { slaves_waiting := [], responses := [], timestamp := 0, type := none } := by
  norm_num [send_capture_command, emptyPeerState, on_connect, initMasterState, initStats,
    ainsert, aupdate, alookup]

/-- Claim C5 (amended): with an empty peer set, a successful Issue
inserts a PendingEntry whose waiting set is empty and leaves it in the
Pending Table when it returns; nothing is completed or logged at issue
time. The entry is only evicted later by a Timeout Sweeper pass once its
deadline has strictly passed, and that eviction touches neither the
global nor the per-peer statistics (there are no waiting peers to time
out). -/
theorem empty_slaves_issue_leaves_entry (now : ℚ) (s : MasterState)
    (h : s.connected = true) (hp : s.pending_commands = []) :
    (send_capture_command [] now true s).2 = some (s.command_counter + 1) ∧
    (send_capture_command [] now true s).1.pending_commands =
      [(s.command_counter + 1,
        { slaves_waiting := [], responses := [], timestamp := now, type := none })] ∧
    (∀ later tmo : ℚ, later - now > tmo →
        (check_timeouts tmo later (send_capture_command [] now true s).1).pending_commands
          = [] ∧
        (check_timeouts tmo later (send_capture_command [] now true s).1).stats =
          (send_capture_command [] now true s).1.stats ∧
        (check_timeouts tmo later (send_capture_command [] now true s).1).board_stats =
          (send_capture_command [] now true s).1.board_stats) := by
  unfold send_capture_command
  rw [h]
  simp only [Bool.true_eq_false, if_false, if_true, ite_true, ite_false]
  refine ⟨by simp, ?_, ?_⟩
  · simp [ainsert, alookup, hp]
  · intro later tmo hlt
    simp only [ainsert, alookup, hp]
    unfold check_timeouts
    simp [expiredP, hlt]

/-- Claim C5 witness: the amended theorem at the empty-peer connected
state, with the sweeper pass taken at time 10 against timeout 5. -/
theorem empty_slaves_issue_leaves_entry_witness :
    (send_capture_command [] 0 true emptyPeerState).2 =
      some (emptyPeerState.command_counter + 1) ∧
    (send_capture_command [] 0 true emptyPeerState).1.pending_commands =
      [(emptyPeerState.command_counter + 1,
        { slaves_waiting := [], responses := [], timestamp := 0, type := none })] ∧
    (∀ later tmo : ℚ, later - 0 > tmo →
        (check_timeouts tmo later (send_capture_command [] 0 true emptyPeerState).1).pending_commands
          = [] ∧
        (check_timeouts tmo later (send_capture_command [] 0 true emptyPeerState).1).stats =
          (send_capture_command [] 0 true emptyPeerState).1.stats ∧
        (check_timeouts tmo later (send_capture_command [] 0 true emptyPeerState).1).board_stats =
          (send_capture_command [] 0 true emptyPeerState).1.board_stats) :=
  empty_slaves_issue_leaves_entry 0 emptyPeerState rfl rfl

/-! ## Claim C6: sweeper machinery -/

/-- Number of occurrences of a peer id in a waiting list (a Python set,
so in practice 0 or 1). -/
def countOcc (p : String) : List String → Nat
  | [] => 0
  | x :: rest => (if x = p then 1 else 0) + countOcc p rest

/-- Number of (entry, occurrence) pairs of a peer id across the waiting
lists of a list of pending entries. -/
def countWaiting (p : String) : List (Nat × PendingEntry) → Nat
  | [] => 0
  | q :: rest => countOcc p q.2.slaves_waiting + countWaiting p rest

/-- Total number of waiting-list members across a list of pending
entries. -/
def totalWaiting : List (Nat × PendingEntry) → Nat
  | [] => 0
  | q :: rest => q.2.slaves_waiting.length + totalWaiting rest

theorem bumpTimeout_board (sl p : String) (b : BoardStat) (s : MasterState)
    (hb : alookup p s.board_stats = some b) :
    alookup p (bumpTimeout sl s).board_stats =
      some (if sl = p
        then { b with timeout_responses := b.timeout_responses + 1, status := "timeout" }
        else b) := by
  unfold bumpTimeout
  by_cases hsl : sl = p
  · subst hsl
    rw [hb]
    dsimp only
    rw [alookup_aupdate_self, hb]
    simp
  · cases h : alookup sl s.board_stats with
    | none =>
      dsimp only
      rw [hb, if_neg hsl]
    | some c =>
      dsimp only
      rw [alookup_aupdate_ne _ _ hsl, hb, if_neg hsl]

theorem bumpTimeout_isSome (sl q : String) (s : MasterState) :
    (alookup q (bumpTimeout sl s).board_stats).isSome =
      (alookup q s.board_stats).isSome := by
  unfold bumpTimeout
  cases h : alookup sl s.board_stats with
  | none => rfl
  | some b =>
    dsimp only
    rw [alookup_isSome_aupdate]

theorem bumpTimeout_stats (sl : String) (s : MasterState) :
    (bumpTimeout sl s).stats.timeout_responses =
      s.stats.timeout_responses +
        (if (alookup sl s.board_stats).isSome then 1 else 0) := by
  unfold bumpTimeout
  cases h : alookup sl s.board_stats with
  | none => simp
  | some b => simp

theorem foldl_bump_board (ws : List String) (s : MasterState) (p : String) (b : BoardStat)
    (hb : alookup p s.board_stats = some b) :
    alookup p ((ws.foldl (fun a sl => bumpTimeout sl a) s)).board_stats =
      some { b with timeout_responses := b.timeout_responses + countOcc p ws,
                    status := if countOcc p ws = 0 then b.status else "timeout" } := by
  induction ws generalizing s b with
  | nil => exact hb
  | cons sl rest ih =>
    rw [List.foldl_cons]
    by_cases hsl : sl = p
    · have h1 := bumpTimeout_board sl p b s hb
      rw [if_pos hsl] at h1
      have h2 := ih (bumpTimeout sl s) _ h1
      rw [h2]
      by_cases hz : countOcc p rest = 0 <;>
        simp [countOcc, hsl, hz, Nat.add_assoc]
    · have h1 := bumpTimeout_board sl p b s hb
      rw [if_neg hsl] at h1
      have h2 := ih (bumpTimeout sl s) b h1
      rw [h2]
      simp [countOcc, hsl]

theorem foldl_bump_stats_keys (ws : List String) (s : MasterState)
    (hconf : ∀ sl ∈ ws, (alookup sl s.board_stats).isSome = true) :
    ((ws.foldl (fun a sl => bumpTimeout sl a) s)).stats.timeout_responses =
      s.stats.timeout_responses + ws.length ∧
    (∀ q, (alookup q ((ws.foldl (fun a sl => bumpTimeout sl a) s)).board_stats).isSome =
      (alookup q s.board_stats).isSome) := by
  induction ws generalizing s with
  | nil => exact ⟨rfl, fun q => rfl⟩
  | cons sl rest ih =>
    have hsl := hconf sl (List.mem_cons_self sl rest)
    have hrest : ∀ x ∈ rest, (alookup x (bumpTimeout sl s).board_stats).isSome = true := by
      intro x hx
      rw [bumpTimeout_isSome]
      exact hconf x (List.mem_cons_of_mem sl hx)
    obtain ⟨ih1, ih2⟩ := ih (bumpTimeout sl s) hrest
    constructor
    · rw [List.foldl_cons, ih1, bumpTimeout_stats, hsl]
      simp only [if_true, List.length_cons]
      omega
    · intro q
      rw [List.foldl_cons, ih2 q, bumpTimeout_isSome]

theorem foldl_entries_board (es : List (Nat × PendingEntry)) (s : MasterState)
    (p : String) (b : BoardStat) (hb : alookup p s.board_stats = some b) :
    alookup p ((es.foldl
        (fun acc q => q.2.slaves_waiting.foldl (fun a sl => bumpTimeout sl a) acc) s)).board_stats =
      some { b with timeout_responses := b.timeout_responses + countWaiting p es,
                    status := if countWaiting p es = 0 then b.status else "timeout" } := by
  induction es generalizing s b with
  | nil => exact hb
  | cons q rest ih =>
    rw [List.foldl_cons]
    have h1 := foldl_bump_board q.2.slaves_waiting s p b hb
    have h2 := ih _ _ h1
    rw [h2]
    by_cases h1z : countOcc p q.2.slaves_waiting = 0 <;>
      by_cases h2z : countWaiting p rest = 0 <;>
        simp [countWaiting, h1z, h2z, Nat.add_assoc]

theorem foldl_entries_stats_keys (es : List (Nat × PendingEntry)) (s : MasterState)
    (hconf : ∀ q ∈ es, ∀ sl ∈ q.2.slaves_waiting,
        (alookup sl s.board_stats).isSome = true) :
    ((es.foldl
        (fun acc q => q.2.slaves_waiting.foldl (fun a sl => bumpTimeout sl a) acc) s)).stats.timeout_responses =
      s.stats.timeout_responses + totalWaiting es ∧
    (∀ r, (alookup r ((es.foldl
        (fun acc q => q.2.slaves_waiting.foldl (fun a sl => bumpTimeout sl a) acc) s)).board_stats).isSome =
      (alookup r s.board_stats).isSome) := by
  induction es generalizing s with
  | nil => exact ⟨rfl, fun r => rfl⟩
  | cons q rest ih =>
    have hq := hconf q (List.mem_cons_self q rest)
    obtain ⟨h1, h2⟩ := foldl_bump_stats_keys q.2.slaves_waiting s hq
    have hrest : ∀ x ∈ rest, ∀ sl ∈ x.2.slaves_waiting,
        (alookup sl ((q.2.slaves_waiting.foldl (fun a sl => bumpTimeout sl a) s)).board_stats).isSome = true := by
      intro x hx sl hsl
      rw [h2 sl]
      exact hconf x (List.mem_cons_of_mem q hx) sl hsl
    obtain ⟨ih1, ih2⟩ := ih _ hrest
    constructor
    · rw [List.foldl_cons, ih1, h1]
      simp only [totalWaiting]
      omega
    · intro r
      rw [List.foldl_cons, ih2 r, h2 r]

/-! ## Claim C6: theorems -/

/-- A one-entry pending table whose entry was issued at time 0 with a
five-second command timeout. -/
def boundaryState : MasterState :=
  { connected := true
    command_counter := 1
    pending_commands :=
      [(1, { slaves_waiting := ["cam2"], responses := [], timestamp := 0, type := none })]
    stats := initStats
    board_stats := [("cam2", initBoardStat)]
    last_poll_time := 0 }

/-- Claim C6 counterexample: with timeout 5, the entry issued at 0 has
deadline 0 + 5 ≤ now = 5, yet a sweeper pass at now = 5 deletes nothing
and leaves every counter at zero, because the code tests the strict
inequality now − issued > timeout. -/
theorem sweeper_keeps_boundary_entry :
    ((0 : ℚ) + 5 ≤ 5) ∧
    (check_timeouts 5 5 boundaryState).pending_commands = boundaryState.pending_commands ∧
    ((alookup "cam2" (check_timeouts 5 5 boundaryState).board_stats).map
        BoardStat.timeout_responses = some 0) ∧
    (check_timeouts 5 5 boundaryState).stats.timeout_responses = 0 := by
  have hx : expiredP 5 5
      { slaves_waiting := ["cam2"], responses := [], timestamp := 0, type := none } = false := by
    unfold expiredP
    rw [decide_eq_false_iff_not]
    norm_num
  refine ⟨by norm_num, ?_, ?_, ?_⟩ <;>
    simp [check_timeouts, boundaryState, hx, initStats, initBoardStat, alookup]

/-- Claim C6 (amended): a sweeper pass at time `now` deletes exactly the
entries with `now − issued > timeout` (strictly past their deadline; an
entry whose deadline equals `now` survives) and keeps the others
unchanged; a configured peer's timed_out counter grows by one per
expired entry still waiting on it (its status becoming "timeout" when
there is at least one), and GlobalStats.timeout_responses grows by the
total number of still-waiting peers over expired entries. -/
theorem sweeper_pass_effect (tmo now : ℚ) (s : MasterState) (p : String) (b : BoardStat)
    (hb : alookup p s.board_stats = some b)
    (hconf : ∀ q ∈ s.pending_commands.filter (fun q => expiredP tmo now q.2),
        ∀ sl ∈ q.2.slaves_waiting, (alookup sl s.board_stats).isSome = true) :
    (check_timeouts tmo now s).pending_commands =
      s.pending_commands.filter (fun q => !expiredP tmo now q.2) ∧
    alookup p (check_timeouts tmo now s).board_stats =
      some { b with
        timeout_responses := b.timeout_responses +
          countWaiting p (s.pending_commands.filter (fun q => expiredP tmo now q.2)),
        status :=
          if countWaiting p (s.pending_commands.filter (fun q => expiredP tmo now q.2)) = 0
          then b.status else "timeout" } ∧
    (check_timeouts tmo now s).stats.timeout_responses =
      s.stats.timeout_responses +
        totalWaiting (s.pending_commands.filter (fun q => expiredP tmo now q.2)) := by
  unfold check_timeouts
  refine ⟨?_, ?_, ?_⟩
  · exact congrArg (List.filter _) (foldl_entries_pending _ s)
  · exact foldl_entries_board _ s p b hb
  · exact (foldl_entries_stats_keys _ s hconf).1

/-- Claim C6 witness: a sweeper pass at now = 6 against timeout 5 on the
boundary state: the entry issued at 0 is expired, cam2 is timed out once
and the table is emptied. -/
theorem sweeper_pass_effect_witness :
    (check_timeouts 5 6 boundaryState).pending_commands =
      boundaryState.pending_commands.filter (fun q => !expiredP 5 6 q.2) ∧
    alookup "cam2" (check_timeouts 5 6 boundaryState).board_stats =
      some { initBoardStat with
        timeout_responses := initBoardStat.timeout_responses +
          countWaiting "cam2" (boundaryState.pending_commands.filter (fun q => expiredP 5 6 q.2)),
        status :=
          if countWaiting "cam2"
              (boundaryState.pending_commands.filter (fun q => expiredP 5 6 q.2)) = 0
          then initBoardStat.status else "timeout" } ∧
    (check_timeouts 5 6 boundaryState).stats.timeout_responses =
      boundaryState.stats.timeout_responses +
        totalWaiting (boundaryState.pending_commands.filter (fun q => expiredP 5 6 q.2)) :=
  sweeper_pass_effect 5 6 boundaryState "cam2" initBoardStat (by decide)
    (by
      have hx : expiredP 5 6
          { slaves_waiting := ["cam2"], responses := [], timestamp := 0, type := none }
          = true := by
        unfold expiredP
        rw [decide_eq_true_eq]
        norm_num
      intro q hq sl hsl
      simp only [boundaryState, List.filter, hx, List.mem_cons, List.not_mem_nil,
        or_false] at hq
      subst hq
      simp only [List.mem_cons, List.not_mem_nil, or_false] at hsl
      subst hsl
      decide)

/-! ## Claim C7 -/

/-- Claim C7: a peer handler that receives the same capture command
twice in direct succession performs exactly one camera capture: the
second delivery matches `last_command_id` and is dropped without a
capture and without a response, while the first delivery (when the id is
new) captures once and answers. -/
theorem duplicate_capture_suppressed (client fn1 fn2 : String) (a1 b1 a2 b2 : Int)
    (n1 n2 : ℚ) (ok1 ok2 : Bool) (s : SlaveState) (cmd : Command)
    (hkind : cmd.type.getD "capture" ≠ "poll") :
    (process_command client fn2 a2 b2 n2 ok2
        (process_command client fn1 a1 b1 n1 ok1 s cmd).1 cmd).2.1 = 0 ∧
    (process_command client fn2 a2 b2 n2 ok2
        (process_command client fn1 a1 b1 n1 ok1 s cmd).1 cmd).2.2 = none ∧
    (s.last_command_id ≠ some cmd.id →
      (process_command client fn1 a1 b1 n1 ok1 s cmd).2.1 = 1 ∧
      (process_command client fn1 a1 b1 n1 ok1 s cmd).2.1 +
        (process_command client fn2 a2 b2 n2 ok2
          (process_command client fn1 a1 b1 n1 ok1 s cmd).1 cmd).2.1 = 1 ∧
      (process_command client fn1 a1 b1 n1 ok1 s cmd).2.2 ≠ none) := by
  by_cases hdup : s.last_command_id = some cmd.id
  · refine ⟨?_, ?_, ?_⟩ <;> simp [process_command, hkind, hdup]
  · cases ok1 <;> refine ⟨?_, ?_, ?_⟩ <;> simp [process_command, hkind, hdup]

/-- Claim C7 witness: command id 7 delivered twice to a fresh peer
handler. -/
theorem duplicate_capture_suppressed_witness :
    (process_command "helmet-cam2" "photo.jpg" 0 0 0 true
        (process_command "helmet-cam2" "photo.jpg" 0 0 0 true initSlaveState
          { id := 7, type := none, t_utc_ns := 0, notes := "" }).1
        { id := 7, type := none, t_utc_ns := 0, notes := "" }).2.1 = 0 ∧
    (process_command "helmet-cam2" "photo.jpg" 0 0 0 true
        (process_command "helmet-cam2" "photo.jpg" 0 0 0 true initSlaveState
          { id := 7, type := none, t_utc_ns := 0, notes := "" }).1
        { id := 7, type := none, t_utc_ns := 0, notes := "" }).2.2 = none ∧
    (process_command "helmet-cam2" "photo.jpg" 0 0 0 true initSlaveState
        { id := 7, type := none, t_utc_ns := 0, notes := "" }).2.1 = 1 := by
  have T := duplicate_capture_suppressed "helmet-cam2" "photo.jpg" "photo.jpg" 0 0 0 0
    0 0 true true initSlaveState
    { id := 7, type := none, t_utc_ns := 0, notes := "" } (by decide)
  exact ⟨T.1, T.2.1, (T.2.2 (by decide)).1⟩

/-! ## Claim C10 -/

/-- Claim C10: duplicate suppression has depth one: for deliveries
A, B, A with A ≠ B, each delivery captures once and is answered — the
re-delivered id A is captured and answered a second time because only
the most recent id (B at that point) is remembered. -/
theorem duplicate_suppression_depth_one (a b : Nat) (h : a ≠ b) :
    ((run_slave "helmet-cam2" initSlaveState
      [({ id := a, type := none, t_utc_ns := 0, notes := "" }, true),
       ({ id := b, type := none, t_utc_ns := 0, notes := "" }, true),
       ({ id := a, type := none, t_utc_ns := 0, notes := "" }, true)]).2.map Prod.fst
      = [1, 1, 1]) ∧
    ((run_slave "helmet-cam2" initSlaveState
      [({ id := a, type := none, t_utc_ns := 0, notes := "" }, true),
       ({ id := b, type := none, t_utc_ns := 0, notes := "" }, true),
       ({ id := a, type := none, t_utc_ns := 0, notes := "" }, true)]).2.map
        (fun r => r.2.map Response.id) = [some a, some b, some a]) ∧
    ((run_slave "helmet-cam2" initSlaveState
      [({ id := a, type := none, t_utc_ns := 0, notes := "" }, true),
       ({ id := b, type := none, t_utc_ns := 0, notes := "" }, true),
       ({ id := a, type := none, t_utc_ns := 0, notes := "" }, true)]).1.last_command_id
      = some a) := by
  have hba : ¬ (b = a) := fun hh => h hh.symm
  refine ⟨?_, ?_, ?_⟩ <;>
    simp [run_slave, process_command, initSlaveState, h, hba]

/-- Claim C10 witness: ids 1, 2, 1. -/
theorem duplicate_suppression_depth_one_witness :
    ((run_slave "helmet-cam2" initSlaveState
      [({ id := 1, type := none, t_utc_ns := 0, notes := "" }, true),
       ({ id := 2, type := none, t_utc_ns := 0, notes := "" }, true),
       ({ id := 1, type := none, t_utc_ns := 0, notes := "" }, true)]).2.map Prod.fst
      = [1, 1, 1]) ∧
    ((run_slave "helmet-cam2" initSlaveState
      [({ id := 1, type := none, t_utc_ns := 0, notes := "" }, true),
       ({ id := 2, type := none, t_utc_ns := 0, notes := "" }, true),
       ({ id := 1, type := none, t_utc_ns := 0, notes := "" }, true)]).2.map
        (fun r => r.2.map Response.id) = [some 1, some 2, some 1]) ∧
    ((run_slave "helmet-cam2" initSlaveState
      [({ id := 1, type := none, t_utc_ns := 0, notes := "" }, true),
       ({ id := 2, type := none, t_utc_ns := 0, notes := "" }, true),
       ({ id := 1, type := none, t_utc_ns := 0, notes := "" }, true)]).1.last_command_id
      = some 1) :=
  duplicate_suppression_depth_one 1 2 (by decide)

/-! ## Claim C8: movement detector lemmas -/

theorem imu_step_no_trigger_last (θ c : ℚ) (s s' : ImuState) (x : ImuSample)
    (h : imu_step θ c s x = (s', false)) :
    s'.last_imu_capture = s.last_imu_capture := by
  unfold imu_step at h
  split at h
  · injection h with h1 h2
    rw [← h1]
  · split at h
    · injection h with h1 h2
      rw [← h1]
    · split at h
      · injection h with h1 h2
        rw [← h1]
      · split at h
        · injection h with h1 h2
          exact Bool.noConfusion h2
        · injection h with h1 h2
          rw [← h1]

theorem imu_step_trigger (θ c : ℚ) (s s' : ImuState) (x : ImuSample)
    (h : imu_step θ c s x = (s', true)) :
    c ≤ x.t - s.last_imu_capture ∧ s'.last_imu_capture = x.t ∧
    ∃ m prev, x.reading = some m ∧ s.last_acceleration = some prev ∧
      |m - prev| > θ := by
  unfold imu_step at h
  split at h
  · injection h with h1 h2
    exact Bool.noConfusion h2
  next hcool =>
    split at h
    · injection h with h1 h2
      exact Bool.noConfusion h2
    next mag hmag =>
      split at h
      · injection h with h1 h2
        exact Bool.noConfusion h2
      next prev hprev =>
        split at h
        next htr =>
          injection h with h1 h2
          subst h1
          exact ⟨le_of_not_lt hcool, rfl, mag, prev, hmag, hprev, htr⟩
        · injection h with h1 h2
          exact Bool.noConfusion h2

theorem imu_first_sample_no_trigger (θ c : ℚ) (x : ImuSample) :
    (imu_step θ c imuInit x).2 = false := by
  unfold imu_step imuInit
  split
  · rfl
  · cases hx : x.reading with
    | none => rfl
    | some m => rfl

theorem imu_run_chain (θ c : ℚ) : ∀ (samples : List ImuSample) (s : ImuState),
    (imu_run θ c s samples).Chain' (fun t1 t2 => c ≤ t2 - t1) ∧
    (∀ t, (imu_run θ c s samples).head? = some t → c ≤ t - s.last_imu_capture) := by
  intro samples
  induction samples with
  | nil =>
    intro s
    refine ⟨List.chain'_nil, ?_⟩
    intro t ht
    simp [imu_run] at ht
  | cons x rest ih =>
    intro s
    cases htr : (imu_step θ c s x).2 with
    | false =>
      have hst : imu_step θ c s x = ((imu_step θ c s x).1, false) := by
        rw [← htr]
      have hlast := imu_step_no_trigger_last θ c s _ x hst
      constructor
      · simp only [imu_run, htr, if_false, Bool.false_eq_true]
        exact (ih _).1
      · intro t ht
        simp only [imu_run, htr, if_false, Bool.false_eq_true] at ht
        have h2 := (ih _).2 t ht
        rw [hlast] at h2
        exact h2
    | true =>
      have hst : imu_step θ c s x = ((imu_step θ c s x).1, true) := by
        rw [← htr]
      have htrig := imu_step_trigger θ c s _ x hst
      constructor
      · simp only [imu_run, htr, if_true]
        rw [List.chain'_cons']
        constructor
        · intro y hy
          have h2 := (ih _).2 y hy
          rw [htrig.2.1] at h2
          exact h2
        · exact (ih _).1
      · intro t ht
        simp only [imu_run, htr, if_true, List.head?_cons] at ht
        injection ht with ht1
        rw [← ht1]
        exact htrig.1

/-! ## Claim C8: theorem -/

/-- Claim C8: the movement detector triggers on a sample only when the
cooldown has fully elapsed since the previous trigger time and the
magnitude delta against the seeded previous magnitude strictly exceeds
the threshold (so an unavailable snapshot or an unseeded state never
triggers); the first sample after startup never triggers; and along any
sample sequence, consecutive trigger times are at least the cooldown
apart. -/
theorem movement_trigger_cooldown :
    (∀ θ c : ℚ, ∀ s s' : ImuState, ∀ x : ImuSample,
        imu_step θ c s x = (s', true) →
        c ≤ x.t - s.last_imu_capture ∧ s'.last_imu_capture = x.t ∧
        ∃ m prev, x.reading = some m ∧ s.last_acceleration = some prev ∧
          |m - prev| > θ) ∧
    (∀ θ c : ℚ, ∀ x : ImuSample, (imu_step θ c imuInit x).2 = false) ∧
    (∀ θ c : ℚ, ∀ samples : List ImuSample,
        (imu_run θ c imuInit samples).Chain' (fun t1 t2 => c ≤ t2 - t1)) :=
  ⟨imu_step_trigger, imu_first_sample_no_trigger,
   fun θ c samples => (imu_run_chain θ c samples imuInit).1⟩

/-- Claim C8 witness: threshold 2, cooldown 30, magnitude deltas
(1, 3, 4, 5) at times (1000, 1001, 1005, 1040) after a seed sample at
999: triggers fire exactly at 1001 and 1040, 39 ≥ 30 apart; the trigger
at 1001 satisfies the step-level trigger conditions. -/
theorem movement_trigger_cooldown_witness :
    (imu_run 2 30 imuInit
      [⟨999, some 0⟩, ⟨1000, some 1⟩, ⟨1001, some 4⟩, ⟨1005, some 8⟩,
       ⟨1040, some 13⟩]).Chain' (fun t1 t2 => (30 : ℚ) ≤ t2 - t1) ∧
    (imu_run 2 30 imuInit
      [⟨999, some 0⟩, ⟨1000, some 1⟩, ⟨1001, some 4⟩, ⟨1005, some 8⟩,
       ⟨1040, some 13⟩]) = [1001, 1040] ∧
    (30 : ℚ) ≤ (1001 : ℚ) -
      ({ last_imu_capture := 0, last_acceleration := some 1 } : ImuState).last_imu_capture := by
  refine ⟨movement_trigger_cooldown.2.2 2 30 _, ?_, ?_⟩
  · norm_num [imu_run, imu_step, imuInit, abs]
  · exact (movement_trigger_cooldown.1 2 30
      { last_imu_capture := 0, last_acceleration := some 1 }
      { last_imu_capture := 1001, last_acceleration := some 4 }
      ⟨1001, some 4⟩ (by norm_num [imu_step, abs])).1

/-! ## Claim C4 -/

/-- Claim C4 (code bug): with the master system present and running, the
POST command endpoint always answers HTTP 503 "Master system not ready"
and never status "started", because `MasterHelmetSystem` defines no
`capture_sequence` attribute while the endpoint requires one. -/
theorem api_command_returns_not_ready :
    api_send_command true masterHelmetSystemAttrs 3 2 =
      { code := 503, body_status := none, body_count := none, body_interval := none,
        body_error := some "Master system not ready" } ∧
    ∀ count interval : Nat,
      (api_send_command true masterHelmetSystemAttrs count interval).body_status ≠
        some "started" := by
  constructor
  · decide
  · intro count interval
    have hm : ¬ ("capture_sequence" ∈ masterHelmetSystemAttrs) := by decide
    simp [api_send_command, hm]

end HelmClient
